import Mathlib

/-!
Verification of the CoAP-to-MQTT bridge of `src/coap_server/coap_server.py`.

The development shallowly embeds the bridge resource `MQTT_Bridge` and the
module-level `locations` table.  Python dictionaries are modelled as
insertion-ordered association lists over `String` keys (CPython dicts preserve
insertion order, and assigning to an existing key updates the value in place
without moving the key).  Python exceptions are modelled by `Option`: a
function returns `none` exactly when the corresponding Python code raises.
Request bodies are byte lists; UTF-8 decoding and JSON parsing are modelled
concretely so that concrete requests can be evaluated end to end.
-/

/-- A JSON value as produced by Python's `json.loads`.  Numeric literals are
kept verbatim as strings: the bridge never computes with numbers, it only
carries them through, so the literal text is a faithful representation.
Objects are insertion-ordered key/value lists (CPython dict semantics). -/
inductive JVal where
  | null : JVal
  | bool : Bool → JVal
  | num : String → JVal
  | str : String → JVal
  | arr : List JVal → JVal
  | obj : List (String × JVal) → JVal

/-- Lookup in an insertion-ordered Python dict (`d[k]` / `d.get(k)` /
`k in d`): the value of the first pair whose key equals `k`.  Keys of dicts
built by `json.loads` or by the bridge are unique, so "first" is exact. -/
def dictLookup {α : Type} : List (String × α) → String → Option α
  | [], _ => none
  | (k', v) :: t, k => if k' = k then some v else dictLookup t k

/-- Assignment `d[k] = v` on an insertion-ordered Python dict: update the
first pair with key `k` in place (keeping its position), or append the new
pair at the end when the key is absent. -/
def setKey {α : Type} : List (String × α) → String → α → List (String × α)
  | [], k, v => [(k, v)]
  | (k', v') :: t, k, v => if k' = k then (k, v) :: t else (k', v') :: setKey t k v

/-- Python `s.lower().replace(" ", "")` as applied to MAC-address strings by
the bridge: lower-case every character, then delete space characters.
(`Char.toLower` matches Python on the ASCII range, which is the only range the
directory keys and the claims exercise.) -/
def normalizeMac (s : String) : String :=
  ⟨(s.data.map Char.toLower).filter (fun c => c ≠ ' ')⟩

/-- The module-level `locations` table of `coap_server.py` (lines 68-74). -/
def locations : List (String × String) :=
  [("3a:4f:ec:85:c0:65:36:19", "raum_1_08"),
   ("8e:d0:82:0b:a8:e5:c8:93", "roboterlabor"),
   ("52:9d:cd:3b:8a:73:dd:58", "besprechungsraum"),
   ("9a:d6:18:d1:e5:e5:7d:4b", "uic"),
   ("be:73:09:12:a3:31:2e:52", "erste_etage_flur")]

/-- `DEFAULT_TOPIC` constant (line 77). -/
def DEFAULT_TOPIC : String := "sensor/default"

/-- Python `str.removeprefix("/")`: drop one leading slash when present. -/
def removeLeadingSlash (s : String) : String :=
  match s.data with
  | '/' :: t => ⟨t⟩
  | _ => s

/-- `MQTT_Bridge._extract_topic` (lines 159-167).  The argument is the path
component of the parsed request URI (`urlparse(request.get_request_uri()).path`);
`none` models the URI machinery raising, which the method's bare `except`
converts into the default topic. -/
def extract_topic (uriPath : Option String) : String :=
  match uriPath with
  | none => DEFAULT_TOPIC
  | some p =>
    let topic := removeLeadingSlash p
    if topic ≠ "" ∧ topic ∉ (["/", "()", "#", "$"] : List String) then topic
    else DEFAULT_TOPIC

/-- The URI path aiocoap reports for a request whose path segments join to
`joined`: a single leading slash followed by the joined segments. -/
def coapPath (joined : String) : String := ⟨'/' :: joined.data⟩

/-- Whether a byte is a UTF-8 continuation byte. -/
def isCont (b : Nat) : Bool := decide (0x80 ≤ b ∧ b < 0xC0)

/-- Fuel-indexed strict UTF-8 decoder (the semantics of Python
`bytes.decode("utf-8")`): rejects stray continuation bytes, overlong forms,
surrogate code points and code points beyond U+10FFFF.  The fuel is only a
termination device; `utf8Decode` supplies one unit per input byte, which is
always enough since every step consumes at least one byte. -/
def utf8d : Nat → List Nat → Option (List Char)
  | _, [] => some []
  | 0, _ :: _ => none
  | fuel + 1, b0 :: t0 =>
    if b0 < 0x80 then (utf8d fuel t0).map (fun cs => Char.ofNat b0 :: cs)
    else if b0 < 0xC2 then none
    else if b0 < 0xE0 then
      match t0 with
      | b1 :: t1 =>
        if isCont b1 then
          (utf8d fuel t1).map (fun cs => Char.ofNat ((b0 - 0xC0) * 0x40 + (b1 - 0x80)) :: cs)
        else none
      | [] => none
    else if b0 < 0xF0 then
      match t0 with
      | b1 :: b2 :: t2 =>
        if isCont b1 && isCont b2 then
          let cp := (b0 - 0xE0) * 0x1000 + (b1 - 0x80) * 0x40 + (b2 - 0x80)
          if cp < 0x800 then none
          else if 0xD800 ≤ cp ∧ cp < 0xE000 then none
          else (utf8d fuel t2).map (fun cs => Char.ofNat cp :: cs)
        else none
      | _ => none
    else if b0 < 0xF5 then
      match t0 with
      | b1 :: b2 :: b3 :: t3 =>
        if isCont b1 && isCont b2 && isCont b3 then
          let cp := (b0 - 0xF0) * 0x40000 + (b1 - 0x80) * 0x1000 + (b2 - 0x80) * 0x40 + (b3 - 0x80)
          if cp < 0x10000 then none
          else if 0x110000 ≤ cp then none
          else (utf8d fuel t3).map (fun cs => Char.ofNat cp :: cs)
        else none
      | _ => none
    else none

/-- Python `request.payload.decode("utf-8")` (line 134): `none` models
`UnicodeDecodeError`. -/
def utf8Decode (bs : List Nat) : Option (List Char) := utf8d bs.length bs

/-- UTF-8 bytes of an ASCII string (used to write concrete request bodies). -/
def asciiBytes (s : String) : List Nat := s.data.map Char.toNat

/-! ### A model of Python's `json.loads`

`render` calls the standard library `json.loads` on the decoded body (line
141).  The parser below implements the grammar `json.loads` accepts in its
default configuration: JSON values with insertion-ordered objects where a
duplicated key keeps its first position but its last value (CPython dict
build semantics), strict strings (unescaped control characters rejected),
numbers without leading zeros, and the Python extensions `NaN`, `Infinity`
and `-Infinity`.  `\uXXXX` escapes are decoded except for surrogate code
points (which Lean's `Char` cannot represent; no claim exercises them).
Recursion is fuel-indexed; `json_loads` supplies ample fuel (two units per
input character plus slack), which suffices because every recursive step
consumes input. -/

/-- JSON insignificant whitespace skipper. -/
def skipWs : List Char → List Char
  | [] => []
  | c :: t => if c = ' ' ∨ c = '\t' ∨ c = '\n' ∨ c = '\r' then skipWs t else c :: t

/-- Value of a hexadecimal digit. -/
def hexVal : Char → Option Nat :=
  fun c =>
    if '0' ≤ c ∧ c ≤ '9' then some (c.toNat - 48)
    else if 'a' ≤ c ∧ c ≤ 'f' then some (c.toNat - 87)
    else if 'A' ≤ c ∧ c ≤ 'F' then some (c.toNat - 55)
    else none

/-- Four hexadecimal digits, for `\uXXXX` escapes. -/
def parseHex4 : List Char → Option (Nat × List Char)
  | a :: b :: c :: d :: t =>
    match hexVal a, hexVal b, hexVal c, hexVal d with
    | some x, some y, some z, some w => some ((((x * 16 + y) * 16 + z) * 16 + w), t)
    | _, _, _, _ => none
  | _ => none

/-- Characters of a JSON string after the opening quote, up to and including
the closing quote. -/
def parseStrChars : Nat → List Char → Option (List Char × List Char)
  | 0, _ => none
  | fuel + 1, cs =>
    match cs with
    | [] => none
    | '"' :: t => some ([], t)
    | '\\' :: t =>
      match t with
      | [] => none
      | e :: t2 =>
        let esc : Option (Char × List Char) :=
          if e = '"' then some ('"', t2)
          else if e = '\\' then some ('\\', t2)
          else if e = '/' then some ('/', t2)
          else if e = 'b' then some ('\x08', t2)
          else if e = 'f' then some ('\x0C', t2)
          else if e = 'n' then some ('\n', t2)
          else if e = 'r' then some ('\x0D', t2)
          else if e = 't' then some ('\t', t2)
          else if e = 'u' then
            match parseHex4 t2 with
            | some (n, t3) => if 0xD800 ≤ n ∧ n < 0xE000 then none else some (Char.ofNat n, t3)
            | none => none
          else none
        match esc with
        | some (c, t3) => (parseStrChars fuel t3).map (fun p => (c :: p.1, p.2))
        | none => none
    | c :: t =>
      if c.toNat < 0x20 then none
      else (parseStrChars fuel t).map (fun p => (c :: p.1, p.2))

/-- Longest digit run at the front of the input. -/
def spanDigits : List Char → List Char × List Char
  | [] => ([], [])
  | c :: t =>
    if c.isDigit then
      let p := spanDigits t
      (c :: p.1, p.2)
    else ([], c :: t)

/-- Integer part of a JSON number: a single `0`, or a nonzero digit followed
by digits. -/
def parseIntPart : List Char → Option (List Char × List Char)
  | '0' :: t => some (['0'], t)
  | c :: t =>
    if c.isDigit then
      let p := spanDigits t
      some (c :: p.1, p.2)
    else none
  | [] => none

/-- Optional fractional part of a JSON number. -/
def parseFracPart : List Char → Option (List Char × List Char)
  | '.' :: t =>
    match t with
    | c :: t2 =>
      if c.isDigit then
        let p := spanDigits t2
        some ('.' :: c :: p.1, p.2)
      else none
    | [] => none
  | cs => some ([], cs)

/-- Optional exponent part of a JSON number. -/
def parseExpPart : List Char → Option (List Char × List Char)
  | [] => some ([], [])
  | c :: t =>
    if c = 'e' ∨ c = 'E' then
      match t with
      | [] => none
      | s :: t2 =>
        if s = '+' ∨ s = '-' then
          match t2 with
          | d :: t3 =>
            if d.isDigit then
              let p := spanDigits t3
              some (c :: s :: d :: p.1, p.2)
            else none
          | [] => none
        else if s.isDigit then
          let p := spanDigits t2
          some (c :: s :: p.1, p.2)
        else none
    else some ([], c :: t)

/-- A JSON number literal, returned verbatim. -/
def parseNumber (cs : List Char) : Option (String × List Char) :=
  let sp : List Char × List Char :=
    match cs with
    | '-' :: t => (['-'], t)
    | _ => ([], cs)
  match parseIntPart sp.2 with
  | none => none
  | some (ip, cs2) =>
    match parseFracPart cs2 with
    | none => none
    | some (fp, cs3) =>
      match parseExpPart cs3 with
      | none => none
      | some (ep, cs4) => some (⟨sp.1 ++ ip ++ fp ++ ep⟩, cs4)

/-- Match a fixed literal continuation. -/
def stripLit : List Char → List Char → Option (List Char)
  | [], cs => some cs
  | l :: lt, c :: ct => if c = l then stripLit lt ct else none
  | _ :: _, [] => none

/-- Comma-separated array items (first item included), consuming the closing
bracket.  `pv` parses one value. -/
def parseItemsF (pv : List Char → Option (JVal × List Char)) :
    Nat → List JVal → List Char → Option (List JVal × List Char)
  | 0, _, _ => none
  | fuel + 1, acc, cs =>
    match pv cs with
    | none => none
    | some (v, r) =>
      match skipWs r with
      | ',' :: r2 => parseItemsF pv fuel (v :: acc) r2
      | ']' :: r2 => some ((v :: acc).reverse, r2)
      | _ => none

/-- Comma-separated object members (first member included), consuming the
closing brace.  Members are accumulated with `setKey`, reproducing CPython's
dict-build semantics for duplicate keys. -/
def parseMembersF (pv : List Char → Option (JVal × List Char)) :
    Nat → List (String × JVal) → List Char → Option (List (String × JVal) × List Char)
  | 0, _, _ => none
  | fuel + 1, acc, cs =>
    match skipWs cs with
    | '"' :: t =>
      match parseStrChars (t.length + 1) t with
      | none => none
      | some (kcs, r1) =>
        match skipWs r1 with
        | ':' :: r2 =>
          match pv r2 with
          | none => none
          | some (v, r3) =>
            match skipWs r3 with
            | ',' :: r4 => parseMembersF pv fuel (setKey acc ⟨kcs⟩ v) r4
            | '\x7d' :: r4 => some (setKey acc ⟨kcs⟩ v, r4)
            | _ => none
        | _ => none
    | _ => none

/-- One JSON value (leading whitespace allowed), fuel-indexed. -/
def parseV : Nat → List Char → Option (JVal × List Char)
  | 0, _ => none
  | fuel + 1, cs =>
    match skipWs cs with
    | [] => none
    | c :: t =>
      if c = '\x7b' then
        match skipWs t with
        | '\x7d' :: r => some (.obj [], r)
        | _ => (parseMembersF (parseV fuel) fuel [] t).map (fun p => (.obj p.1, p.2))
      else if c = '[' then
        match skipWs t with
        | ']' :: r => some (.arr [], r)
        | _ => (parseItemsF (parseV fuel) fuel [] t).map (fun p => (.arr p.1, p.2))
      else if c = '"' then
        (parseStrChars (t.length + 1) t).map (fun p => (.str ⟨p.1⟩, p.2))
      else if c = 't' then (stripLit ['r', 'u', 'e'] t).map (fun r => (.bool true, r))
      else if c = 'f' then (stripLit ['a', 'l', 's', 'e'] t).map (fun r => (.bool false, r))
      else if c = 'n' then (stripLit ['u', 'l', 'l'] t).map (fun r => (.null, r))
      else if c = 'N' then (stripLit ['a', 'N'] t).map (fun r => (.num "NaN", r))
      else if c = 'I' then
        (stripLit ['n', 'f', 'i', 'n', 'i', 't', 'y'] t).map (fun r => (.num "Infinity", r))
      else if c = '-' then
        match t with
        | 'I' :: t2 =>
          (stripLit ['n', 'f', 'i', 'n', 'i', 't', 'y'] t2).map
            (fun r => (.num "-Infinity", r))
        | _ => (parseNumber (c :: t)).map (fun p => (.num p.1, p.2))
      else if c.isDigit then (parseNumber (c :: t)).map (fun p => (.num p.1, p.2))
      else none

/-- Python `json.loads` on a text payload: one JSON value surrounded by
optional whitespace; `none` models `json.JSONDecodeError`. -/
def json_loads (s : String) : Option JVal :=
  match parseV (2 * s.data.length + 4) s.data with
  | some (v, r) => if skipWs r = [] then some v else none
  | none => none

/-! ### The bridge resource `MQTT_Bridge` -/

/-- One iteration of the neighbor loop of
`MQTT_Bridge._enrich_data_with_locations` (lines 176-178):

* a neighbor that is not a dict raises `TypeError` when indexed (`none`);
* `neighbor["MAC"]` raises `KeyError` when the key is absent (`none`);
* `neighbor["MAC"] in locations` is `False` for hashable non-string values
  and raises `TypeError` for unhashable ones (lists, dicts);
* when the raw, un-normalized MAC string is a key of `locations`, the label
  is stored under `neighbor_location`; otherwise the entry is untouched. -/
def enrichNeighbor : JVal → Option JVal
  | .obj nf =>
    match dictLookup nf "MAC" with
    | none => none
    | some (.str m) =>
      match dictLookup locations m with
      | some lbl => some (.obj (setKey nf "neighbor_location" (.str lbl)))
      | none => some (.obj nf)
    | some (.arr _) => none
    | some (.obj _) => none
    | some _ => some (.obj nf)
  | _ => none

/-- The neighbor loop over a list value: each element in order; the first
raising element aborts the whole request (the earlier mutations are then
discarded together with the response). -/
def enrichNeighbors : List JVal → Option (List JVal)
  | [] => some []
  | nb :: t =>
    match enrichNeighbor nb with
    | none => none
    | some nb' =>
      match enrichNeighbors t with
      | none => none
      | some t' => some (nb' :: t')

/-- `for neighbor in data["neighbor_rssi"]` applied to the value found under
`neighbor_rssi`.  Python iterates lists elementwise; an empty dict or empty
string iterates zero times (leaving the value unchanged); iterating a
non-empty dict or string produces elements that raise `TypeError` when
indexed with `"MAC"`, and numbers, booleans and `None` are not iterable. -/
def processNeighborsVal : JVal → Option JVal
  | .arr l => (enrichNeighbors l).map JVal.arr
  | .obj [] => some (.obj [])
  | .str s => if s = "" then some (.str s) else none
  | _ => none

/-- Lines 171-174 of `_enrich_data_with_locations`: normalize the first value
of the dict and, when it is a key of `locations`, store the label under
`location`. -/
def enrichTop (fields : List (String × JVal)) (dev : String) : List (String × JVal) :=
  match dictLookup locations (normalizeMac dev) with
  | some lbl => setKey fields "location" (.str lbl)
  | none => fields

/-- `MQTT_Bridge._enrich_data_with_locations` (lines 169-180).  `none` models
an exception: `AttributeError` when the parsed value is not a dict or its
first value is not a string (`.lower()`), `IndexError` when the dict is
empty, `KeyError` when `neighbor_rssi` is absent, and any exception from the
neighbor loop. -/
def enrich_data_with_locations : JVal → Option JVal
  | .obj ((k0, .str dev) :: rest) =>
    match dictLookup (enrichTop ((k0, .str dev) :: rest) dev) "neighbor_rssi" with
    | none => none
    | some nv =>
      match processNeighborsVal nv with
      | none => none
      | some nv' =>
        some (.obj (setKey (enrichTop ((k0, .str dev) :: rest) dev) "neighbor_rssi" nv'))
  | _ => none

/-- Python `str()` as applied by the f-string of `_build_mqtt_topic` to the
value found under `location`.  It is exact on strings (the only kind the
bridge itself ever stores there, and the only kind any claim exercises), on
numeric literals, booleans and `None`; container values are rendered by a
fixed marker, standing in for Python's nested repr, which no claim
evaluates. -/
def pyStr : JVal → String
  | .str s => s
  | .num lit => lit
  | .bool true => "True"
  | .bool false => "False"
  | .null => "None"
  | .arr _ => "[...]"
  | .obj _ => "\x7b...\x7d"

/-- `MQTT_Bridge._build_mqtt_topic` (lines 182-186): recompute the normalized
first value, then `data.get("location", mac_address)` chooses the suffix.
`none` models the same exceptions as in enrichment (non-dict, empty dict, or
non-string first value). -/
def build_mqtt_topic (base_topic : String) : JVal → Option String
  | .obj ((k0, .str dev) :: rest) =>
    let mac_address := normalizeMac dev
    let location_or_mac :=
      match dictLookup ((k0, JVal.str dev) :: rest) "location" with
      | some lv => pyStr lv
      | none => mac_address
    some (base_topic ++ "/" ++ location_or_mac)
  | _ => none

/-- CoAP response classes used by `render`: `Code.CONTENT` (success),
`Code.BAD_REQUEST` (client error), `Code.INTERNAL_SERVER_ERROR` (server
error). -/
inductive Status where
  | content : Status
  | badRequest : Status
  | internalServerError : Status
deriving DecidableEq

/-- A CoAP response `Message`: response code and payload text (the payload
of `Message(code=...)` with no payload argument is empty). -/
structure Response where
  code : Status
  payload : String
deriving DecidableEq

/-- A CoAP request as seen by `MQTT_Bridge.render`: the path component of
its URI (`none` models the URI accessors raising inside `_extract_topic`)
and the raw payload bytes. -/
structure Request where
  uriPath : Option String
  body : List Nat

/-- `MQTT_Bridge.render` (lines 124-157), parametrized by the injected
publish capability `pub` (the `client.publish` call of `_publish_to_mqtt`,
whose boolean reports `result[0] == 0`).  The first component is the
response, `none` modelling an exception escaping `render`; the second
records every publish invocation with its topic and (still unserialized)
enriched data.

Faithful control flow: `_extract_topic` never raises; the UTF-8 decode of
the body happens *before* the `try` block, so its failure escapes `render`;
inside the `try`, `json.JSONDecodeError` maps to `BAD_REQUEST` and every
other exception to `INTERNAL_SERVER_ERROR`; after `_publish_to_mqtt`
returns, `render` answers `CONTENT` without inspecting the publish result,
which lines 193-199 use only for logging. -/
def render (pub : String → JVal → Bool) (req : Request) :
    Option Response × List (String × JVal) :=
  let topic := extract_topic req.uriPath
  match utf8Decode req.body with
  | none => (none, [])
  | some payloadChars =>
    match json_loads ⟨payloadChars⟩ with
    | none => (some ⟨Status.badRequest, ""⟩, [])
    | some parsed_data =>
      match enrich_data_with_locations parsed_data with
      | none => (some ⟨Status.internalServerError, ""⟩, [])
      | some enriched_data =>
        match build_mqtt_topic topic enriched_data with
        | none => (some ⟨Status.internalServerError, ""⟩, [])
        | some fullTopic =>
          let _result := pub fullTopic enriched_data
          (some ⟨Status.content,
                 "Successfully published " ++ toString req.body.length ++ " bytes"⟩,
           [(fullTopic, enriched_data)])

/-- The response of `render` (`handle` in the specification's terms). -/
def handle (pub : String → JVal → Bool) (req : Request) : Option Response :=
  (render pub req).1

/-- The publish invocations performed while handling `req`. -/
def publishCalls (pub : String → JVal → Bool) (req : Request) : List (String × JVal) :=
  (render pub req).2

/-- A publish capability that always reports success (`result[0] == 0`). -/
def pubOk : String → JVal → Bool := fun _ _ => true

/-- A publish capability that always reports failure (`result[0] != 0`). -/
def pubFail : String → JVal → Bool := fun _ _ => false

/-! ### Helper lemmas about the dict operations -/

theorem dictLookup_setKey_self {α : Type} (l : List (String × α)) (k : String) (v : α) :
    dictLookup (setKey l k v) k = some v := by
  induction l with
  | nil => simp [setKey, dictLookup]
  | cons p t ih =>
    obtain ⟨k', v'⟩ := p
    by_cases h : k' = k
    · subst h; simp [setKey, dictLookup]
    · simp [setKey, dictLookup, h, ih]

theorem dictLookup_setKey_ne {α : Type} (l : List (String × α)) (k k' : String) (v : α)
    (h : k' ≠ k) : dictLookup (setKey l k v) k' = dictLookup l k' := by
  induction l with
  | nil => simp [setKey, dictLookup, Ne.symm h]
  | cons p t ih =>
    obtain ⟨k'', v''⟩ := p
    by_cases hk : k'' = k
    · subst hk; simp [setKey, dictLookup, Ne.symm h]
    · simp [setKey, dictLookup, hk, ih]

theorem keys_setKey {α : Type} (l : List (String × α)) (k : String) (v : α) :
    (setKey l k v).map Prod.fst = l.map Prod.fst ∨
    (setKey l k v).map Prod.fst = l.map Prod.fst ++ [k] := by
  induction l with
  | nil => right; simp [setKey]
  | cons p t ih =>
    obtain ⟨k', v'⟩ := p
    by_cases h : k' = k
    · left; subst h; simp [setKey]
    · rcases ih with ih | ih
      · left; simp [setKey, h, ih]
      · right; simp [setKey, h, ih]

theorem keys_setKey_of_mem {α : Type} (l : List (String × α)) (k : String) (v w : α)
    (h : dictLookup l k = some w) :
    (setKey l k v).map Prod.fst = l.map Prod.fst := by
  induction l with
  | nil => simp [dictLookup] at h
  | cons p t ih =>
    obtain ⟨k', v'⟩ := p
    by_cases hk : k' = k
    · subst hk; simp [setKey]
    · simp only [dictLookup, if_neg hk] at h
      simp [setKey, hk, ih h]

theorem dictLookup_eq_none {α : Type} (l : List (String × α)) (k : String)
    (h : ∀ p ∈ l, p.1 ≠ k) : dictLookup l k = none := by
  induction l with
  | nil => rfl
  | cons p t ih =>
    obtain ⟨k', v⟩ := p
    have hk : k' ≠ k := h (k', v) (by simp)
    simp only [dictLookup, if_neg hk]
    exact ih (fun q hq => h q (by simp [hq]))

/-- Unfolding `_enrich_data_with_locations` on a dict whose first value is a
string. -/
theorem enrich_obj_def (k0 dev : String) (rest : List (String × JVal)) :
    enrich_data_with_locations (.obj ((k0, .str dev) :: rest)) =
      (match dictLookup (enrichTop ((k0, JVal.str dev) :: rest) dev) "neighbor_rssi" with
      | none => none
      | some nv =>
        match processNeighborsVal nv with
        | none => none
        | some nv' =>
          some (.obj (setKey (enrichTop ((k0, JVal.str dev) :: rest) dev) "neighbor_rssi" nv'))) :=
  rfl

/-- Destructuring a successful run of `_enrich_data_with_locations` on a
dict whose first value is a string. -/
theorem enrich_obj_eq_some {k0 dev : String} {rest : List (String × JVal)} {j' : JVal}
    (h : enrich_data_with_locations (.obj ((k0, .str dev) :: rest)) = some j') :
    ∃ nv nv',
      dictLookup (enrichTop ((k0, JVal.str dev) :: rest) dev) "neighbor_rssi" = some nv ∧
      processNeighborsVal nv = some nv' ∧
      j' = .obj (setKey (enrichTop ((k0, JVal.str dev) :: rest) dev) "neighbor_rssi" nv') := by
  rw [enrich_obj_def] at h
  split at h
  · simp at h
  · rename_i nv hnv
    split at h
    · simp at h
    · rename_i nv' hnv'
      simp only [Option.some.injEq] at h
      exact ⟨nv, nv', hnv, hnv', h.symm⟩

/-! ### Claims -/

/-- C7 (confirmed): topic-base extraction never fails a request.  For a
request whose path segments join to `j` (so the request URI path is `/`
followed by `j`), the topic-base is the default `"sensor/default"` when `j`
is empty or one of the degenerate tokens `/`, `()`, `#`, `$`; for every
other non-empty joined path the topic-base is `j` itself; and when the URI
machinery raises inside extraction, the default base is returned instead of
failing the request. -/
theorem c7_topic_base_total (j : String) :
    ((j = "" ∨ j = "/" ∨ j = "()" ∨ j = "#" ∨ j = "$") →
      extract_topic (some (coapPath j)) = DEFAULT_TOPIC)
    ∧ (j ≠ "" → j ∉ (["/", "()", "#", "$"] : List String) →
      extract_topic (some (coapPath j)) = j)
    ∧ extract_topic none = DEFAULT_TOPIC := by
  refine ⟨?_, ?_, rfl⟩
  · rintro (rfl | rfl | rfl | rfl | rfl) <;> rfl
  · intro h1 h2
    have he : extract_topic (some (coapPath j)) =
        if j ≠ "" ∧ j ∉ (["/", "()", "#", "$"] : List String) then j else DEFAULT_TOPIC := rfl
    rw [he, if_pos ⟨h1, h2⟩]

/-- Witness for C7 at concrete paths. -/
theorem c7_topic_base_total_witness :
    extract_topic (some (coapPath "sensor")) = "sensor"
    ∧ extract_topic (some (coapPath "()")) = DEFAULT_TOPIC
    ∧ extract_topic none = DEFAULT_TOPIC :=
  ⟨(c7_topic_base_total "sensor").2.1 (by decide) (by decide),
   (c7_topic_base_total "()").1 (Or.inr (Or.inr (Or.inl rfl))),
   (c7_topic_base_total "sensor").2.2⟩

/-- C9 (confirmed): every key of the `locations` table is a fixpoint of MAC
normalization, resolving a normalized key yields the entry's label, and any
identifier whose normalized form is not among the keys resolves to `none`. -/
theorem c9_directory_normalized :
    (∀ p ∈ locations,
      normalizeMac p.1 = p.1 ∧ dictLookup locations (normalizeMac p.1) = some p.2)
    ∧ ∀ s : String, (∀ p ∈ locations, p.1 ≠ normalizeMac s) →
      dictLookup locations (normalizeMac s) = none := by
  constructor
  · decide
  · intro s hs
    exact dictLookup_eq_none locations (normalizeMac s) hs

/-- Witness for C9: a directory entry resolves to its label, and an
identifier outside the table resolves to `none`. -/
theorem c9_directory_normalized_witness :
    dictLookup locations (normalizeMac "3a:4f:ec:85:c0:65:36:19") = some "raum_1_08"
    ∧ dictLookup locations (normalizeMac "ZZ") = none :=
  ⟨(c9_directory_normalized.1 ("3a:4f:ec:85:c0:65:36:19", "raum_1_08") (by decide)).2,
   c9_directory_normalized.2 "ZZ" (by decide)⟩

/-- C2 (corrected) counterexample: a request whose body is the single byte
`0xFF` (not valid UTF-8).  `render` decodes the payload *before* its `try`
block (line 134 versus line 140), so the `UnicodeDecodeError` escapes and no
response is produced, contradicting the claim that every request gets a
response. -/
theorem c2_counterexample :
    handle pubOk ⟨some (coapPath "sensor"), [255]⟩ = none := rfl

/-- C2 as amended: `handle` produces a response exactly for the requests
whose body bytes decode as UTF-8; each such response has one of the three
modelled statuses by construction, while a body that is not valid UTF-8
makes the decode error escape `handle`. -/
theorem c2_amended (pub : String → JVal → Bool) (req : Request) :
    (handle pub req).isSome ↔ (utf8Decode req.body).isSome := by
  unfold handle render
  rcases hd : utf8Decode req.body with _ | cs
  · simp [hd]
  · rcases hj : json_loads ⟨cs⟩ with _ | p
    · simp [hd, hj]
    · rcases he : enrich_data_with_locations p with _ | e
      · simp [hd, hj, he]
      · rcases hb : build_mqtt_topic (extract_topic req.uriPath) e with _ | t
        · simp [hd, hj, he, hb]
        · simp [hd, hj, he, hb]

/-- C3 (corrected) counterexample: a body that is not valid UTF-8 raises out
of `handle` instead of producing a `ClientError` response (first conjunct),
and a well-formed-UTF-8 but malformed-JSON body yields `BAD_REQUEST` with an
*empty* payload, not a diagnostic (second conjunct); in both cases no
publish is attempted. -/
theorem c3_counterexample :
    render pubOk ⟨some (coapPath "sensor"), [0xC3]⟩ = (none, [])
    ∧ render pubOk ⟨some (coapPath "sensor"), asciiBytes "not json"⟩ =
        (some ⟨Status.badRequest, ""⟩, []) :=
  ⟨rfl, rfl⟩

/-- C3 as amended: for every request whose body decodes as UTF-8 text that
is not valid JSON, `handle` returns `BAD_REQUEST` (client error) with an
empty body and the publish capability is never invoked; a body that is not
valid UTF-8 instead raises out of `handle`, also without any publish. -/
theorem c3_amended (pub : String → JVal → Bool) (req : Request) (cs : List Char)
    (h1 : utf8Decode req.body = some cs) (h2 : json_loads ⟨cs⟩ = none) :
    render pub req = (some ⟨Status.badRequest, ""⟩, []) := by
  unfold render
  simp [h1, h2]

/-- Witness for C3 at Scenario C's body `"not json"`. -/
theorem c3_amended_witness :
    render pubOk ⟨some (coapPath "sensor"), asciiBytes "not json"⟩ =
      (some ⟨Status.badRequest, ""⟩, []) :=
  c3_amended pubOk ⟨some (coapPath "sensor"), asciiBytes "not json"⟩ "not json".data rfl rfl

/-- C1 (corrected) counterexample: a request with a valid body handled with
a publish capability that reports failure still receives a `CONTENT`
(success) response — `render` answers success unconditionally after
`_publish_to_mqtt` returns, contradicting the claimed `ServerError`. -/
theorem c1_counterexample :
    handle pubFail
      ⟨some (coapPath "sensor"), asciiBytes "\x7b\"d\":\"x\",\"neighbor_rssi\":[]\x7d"⟩
      = some ⟨Status.content, "Successfully published 28 bytes"⟩
    ∧ Status.content ≠ Status.internalServerError :=
  ⟨rfl, by decide⟩

/-- C1 as amended: the response never depends on the injected publish
capability at all (its result is used only for logging), and whenever
decoding, parsing, enrichment and topic construction succeed, `handle`
returns the success response — even when the publish capability reports
failure. -/
theorem c1_amended :
    (∀ (pub pub' : String → JVal → Bool) (req : Request),
      handle pub req = handle pub' req)
    ∧ (∀ (pub : String → JVal → Bool) (req : Request) (cs : List Char) (j j' : JVal)
        (t : String),
      utf8Decode req.body = some cs → json_loads ⟨cs⟩ = some j →
      enrich_data_with_locations j = some j' →
      build_mqtt_topic (extract_topic req.uriPath) j' = some t →
      handle pub req = some ⟨Status.content,
        "Successfully published " ++ toString req.body.length ++ " bytes"⟩) := by
  constructor
  · intro pub pub' req; rfl
  · intro pub req cs j j' t h1 h2 h3 h4
    unfold handle render
    simp [h1, h2, h3, h4]

/-- Witness for C1: the pipeline hypotheses hold at a concrete request and a
failing publish capability, and the response is still success. -/
theorem c1_amended_witness :
    handle pubFail
      ⟨some (coapPath "sensor"), asciiBytes "\x7b\"d\":\"y\",\"neighbor_rssi\":[]\x7d"⟩
      = some ⟨Status.content, "Successfully published 28 bytes"⟩ :=
  c1_amended.2 pubFail
    ⟨some (coapPath "sensor"), asciiBytes "\x7b\"d\":\"y\",\"neighbor_rssi\":[]\x7d"⟩
    ("\x7b\"d\":\"y\",\"neighbor_rssi\":[]\x7d".data)
    (JVal.obj [("d", JVal.str "y"), ("neighbor_rssi", JVal.arr [])])
    (JVal.obj [("d", JVal.str "y"), ("neighbor_rssi", JVal.arr [])])
    "sensor/y" rfl rfl rfl rfl

/-- C4 (corrected) counterexample: Scenario A exactly as stated — directory
entry present, path `/sensor`, body with `device` and `temperature` but *no*
`neighbor_rssi` field, publish succeeding.  The enrichment loop indexes
`data["neighbor_rssi"]` unconditionally (line 176), so the request ends in
`INTERNAL_SERVER_ERROR` with no publish, not in the claimed success. -/
theorem c4_counterexample :
    render pubOk
      ⟨some (coapPath "sensor"),
       asciiBytes "\x7b\"device\":\"3a:4f:ec:85:c0:65:36:19\",\"temperature\":25.5\x7d"⟩
      = (some ⟨Status.internalServerError, ""⟩, [])
    ∧ Status.internalServerError ≠ Status.content :=
  ⟨rfl, by decide⟩

/-- C4 as amended: Scenario A succeeds once the body also carries a
`neighbor_rssi` list (here empty): the bridge publishes exactly once to
`sensor/raum_1_08` and answers success; without that field the code raises
`KeyError` and answers `INTERNAL_SERVER_ERROR` (see the counterexample). -/
theorem c4_amended :
    (render pubOk
      ⟨some (coapPath "sensor"),
       asciiBytes "\x7b\"device\":\"3a:4f:ec:85:c0:65:36:19\",\"temperature\":25.5,\"neighbor_rssi\":[]\x7d"⟩).1
      = some ⟨Status.content, "Successfully published 74 bytes"⟩
    ∧ (render pubOk
      ⟨some (coapPath "sensor"),
       asciiBytes "\x7b\"device\":\"3a:4f:ec:85:c0:65:36:19\",\"temperature\":25.5,\"neighbor_rssi\":[]\x7d"⟩).2.map Prod.fst
      = ["sensor/raum_1_08"] :=
  ⟨rfl, rfl⟩

/-- C8 (corrected) counterexample: the two-byte body holding an opening and
a closing brace parses as the empty JSON object, yet the publish capability
is invoked zero times because enrichment raises (`IndexError` on the empty
dict) — contradicting "exactly once for every successfully parsed body". -/
theorem c8_counterexample :
    json_loads "\x7b\x7d" = some (JVal.obj [])
    ∧ render pubOk ⟨some (coapPath "sensor"), asciiBytes "\x7b\x7d"⟩ =
        (some ⟨Status.internalServerError, ""⟩, [])
    ∧ (0 : Nat) ≠ 1 :=
  ⟨rfl, rfl, by decide⟩

/-- C8 as amended: per request the publish capability is invoked at most
once, with no retries; it is invoked exactly once precisely when the request
is answered with success (that is, when decode, parse, enrichment and topic
construction all succeed), and in that case the single invocation carries
the final topic and the enriched data. -/
theorem c8_amended :
    (∀ (pub : String → JVal → Bool) (req : Request), (publishCalls pub req).length ≤ 1)
    ∧ (∀ (pub : String → JVal → Bool) (req : Request),
      (handle pub req).map Response.code = some Status.content ↔
        (publishCalls pub req).length = 1)
    ∧ (∀ (pub : String → JVal → Bool) (req : Request) (cs : List Char) (j j' : JVal)
        (t : String),
      utf8Decode req.body = some cs → json_loads ⟨cs⟩ = some j →
      enrich_data_with_locations j = some j' →
      build_mqtt_topic (extract_topic req.uriPath) j' = some t →
      publishCalls pub req = [(t, j')]) := by
  refine ⟨?_, ?_, ?_⟩
  · intro pub req
    unfold publishCalls render
    rcases hd : utf8Decode req.body with _ | cs
    · simp [hd]
    · rcases hj : json_loads ⟨cs⟩ with _ | p
      · simp [hd, hj]
      · rcases he : enrich_data_with_locations p with _ | e
        · simp [hd, hj, he]
        · rcases hb : build_mqtt_topic (extract_topic req.uriPath) e with _ | t
          · simp [hd, hj, he, hb]
          · simp [hd, hj, he, hb]
  · intro pub req
    unfold publishCalls handle render
    rcases hd : utf8Decode req.body with _ | cs
    · simp [hd]
    · rcases hj : json_loads ⟨cs⟩ with _ | p
      · simp [hd, hj]
      · rcases he : enrich_data_with_locations p with _ | e
        · simp [hd, hj, he]
        · rcases hb : build_mqtt_topic (extract_topic req.uriPath) e with _ | t
          · simp [hd, hj, he, hb]
          · simp [hd, hj, he, hb]
  · intro pub req cs j j' t h1 h2 h3 h4
    unfold publishCalls render
    simp [h1, h2, h3, h4]

/-- Witness for C8: the single publish invocation at a concrete request
carries the final topic and the enriched object. -/
theorem c8_amended_witness :
    publishCalls pubOk
      ⟨some (coapPath "sensor"), asciiBytes "\x7b\"d\":\"x\",\"neighbor_rssi\":[]\x7d"⟩
      = [("sensor/x", JVal.obj [("d", JVal.str "x"), ("neighbor_rssi", JVal.arr [])])] :=
  c8_amended.2.2 pubOk
    ⟨some (coapPath "sensor"), asciiBytes "\x7b\"d\":\"x\",\"neighbor_rssi\":[]\x7d"⟩
    ("\x7b\"d\":\"x\",\"neighbor_rssi\":[]\x7d".data)
    (JVal.obj [("d", JVal.str "x"), ("neighbor_rssi", JVal.arr [])])
    (JVal.obj [("d", JVal.str "x"), ("neighbor_rssi", JVal.arr [])])
    "sensor/x" rfl rfl rfl rfl

/-- C5 (corrected) counterexample: a neighbor whose MAC differs from the
directory key `8e:d0:82:0b:a8:e5:c8:93` only by letter case.  Its normalized
form is a directory key (second conjunct), yet enrichment leaves the payload
unchanged (first conjunct) and the neighbor entry carries no
`neighbor_location` (third conjunct): the loop at lines 176-178 looks the
MAC up raw, without normalization. -/
theorem c5_counterexample :
    enrich_data_with_locations
      (.obj [("device", .str "x"),
             ("neighbor_rssi",
              .arr [.obj [("MAC", .str "8E:D0:82:0B:A8:E5:C8:93"), ("RSSI", .num "-70")]])])
      = some (.obj [("device", .str "x"),
             ("neighbor_rssi",
              .arr [.obj [("MAC", .str "8E:D0:82:0B:A8:E5:C8:93"), ("RSSI", .num "-70")]])])
    ∧ dictLookup locations (normalizeMac "8E:D0:82:0B:A8:E5:C8:93") = some "roboterlabor"
    ∧ dictLookup [("MAC", JVal.str "8E:D0:82:0B:A8:E5:C8:93"), ("RSSI", JVal.num "-70")]
        "neighbor_location" = none :=
  ⟨rfl, rfl, rfl⟩

/-- C5 as amended: the neighbor loop looks each entry's `MAC` field up
exactly as given, with no normalization: when the raw MAC string is a
directory key the label is attached under `neighbor_location`, and when it
is not (for instance because it differs from a key by case or embedded
spaces) the entry is left untouched. -/
theorem c5_amended :
    (∀ (nf : List (String × JVal)) (m lbl : String),
      dictLookup nf "MAC" = some (JVal.str m) → dictLookup locations m = some lbl →
      enrichNeighbor (.obj nf) = some (.obj (setKey nf "neighbor_location" (JVal.str lbl))))
    ∧ (∀ (nf : List (String × JVal)) (m : String),
      dictLookup nf "MAC" = some (JVal.str m) → dictLookup locations m = none →
      enrichNeighbor (.obj nf) = some (.obj nf)) := by
  constructor
  · intro nf m lbl h1 h2
    unfold enrichNeighbor
    simp [h1, h2]
  · intro nf m h1 h2
    unfold enrichNeighbor
    simp [h1, h2]

/-- Witness for C5: Scenario E's neighbor with the exact directory key gets
the label `roboterlabor`; the same MAC upper-cased gets nothing. -/
theorem c5_amended_witness :
    enrichNeighbor (.obj [("MAC", JVal.str "8e:d0:82:0b:a8:e5:c8:93"), ("RSSI", JVal.num "-70")])
      = some (.obj (setKey [("MAC", JVal.str "8e:d0:82:0b:a8:e5:c8:93"), ("RSSI", JVal.num "-70")]
          "neighbor_location" (JVal.str "roboterlabor")))
    ∧ enrichNeighbor (.obj [("MAC", JVal.str "8E:D0:82:0B:A8:E5:C8:93")])
      = some (.obj [("MAC", JVal.str "8E:D0:82:0B:A8:E5:C8:93")]) :=
  ⟨c5_amended.1 [("MAC", JVal.str "8e:d0:82:0b:a8:e5:c8:93"), ("RSSI", JVal.num "-70")]
      "8e:d0:82:0b:a8:e5:c8:93" "roboterlabor" rfl rfl,
   c5_amended.2 [("MAC", JVal.str "8E:D0:82:0B:A8:E5:C8:93")]
      "8E:D0:82:0B:A8:E5:C8:93" rfl rfl⟩

/-- Unfolding `_build_mqtt_topic` on a dict whose first value is a string. -/
theorem build_obj_def (base k0 dev : String) (rest : List (String × JVal)) :
    build_mqtt_topic base (.obj ((k0, JVal.str dev) :: rest)) =
      some (base ++ "/" ++
        (match dictLookup ((k0, JVal.str dev) :: rest) "location" with
         | some lv => pyStr lv
         | none => normalizeMac dev)) := rfl

/-- C6 (corrected) counterexample: a payload whose device identifier does
not resolve but which already carries a `location` field of its own.
`data.get("location", mac_address)` (line 185) prefers that pre-existing
field, so the topic ends in `attic`, not in the normalized identifier
`unknown` the claim requires. -/
theorem c6_counterexample :
    enrich_data_with_locations
      (.obj [("device", .str "unknown"), ("location", .str "attic"),
             ("neighbor_rssi", .arr [])])
      = some (.obj [("device", .str "unknown"), ("location", .str "attic"),
             ("neighbor_rssi", .arr [])])
    ∧ build_mqtt_topic "sensor"
        (.obj [("device", .str "unknown"), ("location", .str "attic"),
               ("neighbor_rssi", .arr [])])
      = some "sensor/attic"
    ∧ normalizeMac "unknown" = "unknown"
    ∧ ("sensor/attic" : String) ≠ "sensor/unknown" :=
  ⟨rfl, rfl, rfl, by decide⟩

/-- C6 as amended: the final topic is `base/suffix` where the suffix is the
object's `location` field whenever one is present — whether attached by
enrichment or already carried by the payload — and the normalized device
identifier from the first field only when no `location` field is present at
all; in particular, when the device identifier resolves in the directory,
enrichment always sets `location` to the resolved label and the topic built
from the enriched object ends in that label. -/
theorem c6_amended :
    (∀ (base k0 dev : String) (rest : List (String × JVal)) (l : String),
      dictLookup ((k0, JVal.str dev) :: rest) "location" = some (JVal.str l) →
      build_mqtt_topic base (.obj ((k0, JVal.str dev) :: rest)) = some (base ++ "/" ++ l))
    ∧ (∀ (base k0 dev : String) (rest : List (String × JVal)),
      dictLookup ((k0, JVal.str dev) :: rest) "location" = none →
      build_mqtt_topic base (.obj ((k0, JVal.str dev) :: rest)) =
        some (base ++ "/" ++ normalizeMac dev))
    ∧ (∀ (base k0 dev : String) (rest : List (String × JVal)) (j' : JVal) (lbl : String),
      enrich_data_with_locations (.obj ((k0, JVal.str dev) :: rest)) = some j' →
      dictLookup locations (normalizeMac dev) = some lbl →
      build_mqtt_topic base j' = some (base ++ "/" ++ lbl)) := by
  refine ⟨?_, ?_, ?_⟩
  · intro base k0 dev rest l h
    rw [build_obj_def, h]
    rfl
  · intro base k0 dev rest h
    rw [build_obj_def, h]
  · intro base k0 dev rest j' lbl h hres
    obtain ⟨nv, nv', hnv, hnv', rfl⟩ := enrich_obj_eq_some h
    have hT : enrichTop ((k0, JVal.str dev) :: rest) dev =
        setKey ((k0, JVal.str dev) :: rest) "location" (JVal.str lbl) := by
      unfold enrichTop; rw [hres]
    rw [hT] at hnv ⊢
    by_cases hk0 : k0 = "location"
    · subst hk0
      have h1 : setKey (("location", JVal.str dev) :: rest) "location" (JVal.str lbl)
          = ("location", JVal.str lbl) :: rest := by simp [setKey]
      rw [h1] at hnv ⊢
      have h2 : setKey (("location", JVal.str lbl) :: rest) "neighbor_rssi" nv'
          = ("location", JVal.str lbl) :: setKey rest "neighbor_rssi" nv' := by
        simp [setKey]
      rw [h2, build_obj_def]
      simp [dictLookup, pyStr]
    · have h1 : setKey ((k0, JVal.str dev) :: rest) "location" (JVal.str lbl)
          = (k0, JVal.str dev) :: setKey rest "location" (JVal.str lbl) := by
        simp [setKey, hk0]
      rw [h1] at hnv ⊢
      by_cases hk0' : k0 = "neighbor_rssi"
      · subst hk0'
        simp [dictLookup] at hnv
        subst hnv
        by_cases hdev : dev = ""
        · subst hdev
          have hnone : dictLookup locations (normalizeMac "") = none := by decide
          rw [hnone] at hres; cases hres
        · simp [processNeighborsVal, hdev] at hnv'
      · have h2 : setKey ((k0, JVal.str dev) :: setKey rest "location" (JVal.str lbl))
            "neighbor_rssi" nv'
            = (k0, JVal.str dev) ::
              setKey (setKey rest "location" (JVal.str lbl)) "neighbor_rssi" nv' := by
          simp [setKey, hk0']
        rw [h2, build_obj_def]
        have h3 : dictLookup ((k0, JVal.str dev) ::
            setKey (setKey rest "location" (JVal.str lbl)) "neighbor_rssi" nv') "location"
            = some (JVal.str lbl) := by
          simp only [dictLookup, if_neg hk0]
          rw [dictLookup_setKey_ne _ _ _ _ (by decide), dictLookup_setKey_self]
        rw [h3]
        rfl

/-- Witness for C6: the three cases at concrete inputs — a payload with its
own `location`, one with none, and an enriched payload whose identifier
resolves. -/
theorem c6_amended_witness :
    build_mqtt_topic "sensor" (.obj [("device", JVal.str "unknown"),
        ("location", JVal.str "attic")]) = some "sensor/attic"
    ∧ build_mqtt_topic "sensor" (.obj [("device", JVal.str "Unknown:Mac")])
        = some ("sensor/" ++ normalizeMac "Unknown:Mac")
    ∧ build_mqtt_topic "sensor"
        (.obj [("device", JVal.str "3a:4f:ec:85:c0:65:36:19"),
               ("neighbor_rssi", JVal.arr []), ("location", JVal.str "raum_1_08")])
        = some "sensor/raum_1_08" :=
  ⟨c6_amended.1 "sensor" "device" "unknown" [("location", JVal.str "attic")] "attic" rfl,
   c6_amended.2.1 "sensor" "device" "Unknown:Mac" [] rfl,
   c6_amended.2.2 "sensor" "device" "3a:4f:ec:85:c0:65:36:19"
     [("neighbor_rssi", JVal.arr [])]
     (.obj [("device", JVal.str "3a:4f:ec:85:c0:65:36:19"),
            ("neighbor_rssi", JVal.arr []), ("location", JVal.str "raum_1_08")])
     "raum_1_08" rfl rfl⟩

theorem setKey_head_ne {α : Type} (k0 k : String) (v0 v : α) (t : List (String × α))
    (h : k0 ≠ k) : setKey ((k0, v0) :: t) k v = (k0, v0) :: setKey t k v := by
  simp [setKey, h]

/-- Unfolding the neighbor-loop body on a dict neighbor. -/
theorem enrichNeighbor_obj_def (nf : List (String × JVal)) :
    enrichNeighbor (.obj nf) =
      (match dictLookup nf "MAC" with
      | none => none
      | some (.str m) =>
        match dictLookup locations m with
        | some lbl => some (.obj (setKey nf "neighbor_location" (.str lbl)))
        | none => some (.obj nf)
      | some (.arr _) => none
      | some (.obj _) => none
      | some _ => some (.obj nf)) := rfl

/-- C10 (corrected) counterexample: a payload whose *first* field is itself
named `location` and holds a resolving identifier.  Enrichment overwrites
that first field's value with the resolved label (`data["location"] = ...`
updates the existing key in place), so the first field — the device
identifier — is *not* unchanged, contradicting the claim. -/
theorem c10_counterexample :
    enrich_data_with_locations
      (.obj [("location", .str "3a:4f:ec:85:c0:65:36:19"), ("neighbor_rssi", .arr [])])
      = some (.obj [("location", .str "raum_1_08"), ("neighbor_rssi", .arr [])])
    ∧ ("raum_1_08" : String) ≠ "3a:4f:ec:85:c0:65:36:19" :=
  ⟨rfl, by decide⟩

/-- C10 as amended: enrichment only ever writes the top-level `location`
key, rewrites the `neighbor_rssi` key in place, and writes the
`neighbor_location` key of individual neighbor entries.  Every top-level
field with any other key keeps its presence and value, the top-level key
sequence is preserved (with `location` possibly appended at the end), and
the first field is unchanged whenever its key is not itself `location`;
when the first key *is* `location` and the device resolves, its value is
overwritten with the label (see the counterexample).  Likewise each
neighbor entry keeps every field other than `neighbor_location`, and its
key sequence is preserved with `neighbor_location` possibly appended. -/
theorem c10_amended :
    (∀ (k0 dev : String) (rest : List (String × JVal)) (j' : JVal),
      enrich_data_with_locations (.obj ((k0, JVal.str dev) :: rest)) = some j' →
      ∃ fields', j' = .obj fields'
        ∧ (∀ k, k ≠ "location" → k ≠ "neighbor_rssi" →
            dictLookup fields' k = dictLookup ((k0, JVal.str dev) :: rest) k)
        ∧ (fields'.map Prod.fst = ((k0, JVal.str dev) :: rest).map Prod.fst ∨
           fields'.map Prod.fst = ((k0, JVal.str dev) :: rest).map Prod.fst ++ ["location"])
        ∧ (k0 ≠ "location" → ∃ rest', fields' = (k0, JVal.str dev) :: rest'))
    ∧ (∀ (nf : List (String × JVal)) (nb' : JVal),
      enrichNeighbor (.obj nf) = some nb' →
      ∃ nf', nb' = .obj nf'
        ∧ (∀ k, k ≠ "neighbor_location" → dictLookup nf' k = dictLookup nf k)
        ∧ (nf'.map Prod.fst = nf.map Prod.fst ∨
           nf'.map Prod.fst = nf.map Prod.fst ++ ["neighbor_location"])) := by
  constructor
  · intro k0 dev rest j' h
    obtain ⟨nv, nv', hnv, hnv', rfl⟩ := enrich_obj_eq_some h
    refine ⟨setKey (enrichTop ((k0, JVal.str dev) :: rest) dev) "neighbor_rssi" nv',
      rfl, ?_, ?_, ?_⟩
    · intro k hk1 hk2
      rw [dictLookup_setKey_ne _ _ _ _ hk2]
      unfold enrichTop
      rcases hres : dictLookup locations (normalizeMac dev) with _ | lbl
      · simp only [hres]
      · simp only [hres]
        exact dictLookup_setKey_ne _ _ _ _ hk1
    · have h1 : (setKey (enrichTop ((k0, JVal.str dev) :: rest) dev) "neighbor_rssi"
          nv').map Prod.fst = (enrichTop ((k0, JVal.str dev) :: rest) dev).map Prod.fst :=
        keys_setKey_of_mem _ _ _ nv hnv
      rw [h1]
      unfold enrichTop
      rcases hres : dictLookup locations (normalizeMac dev) with _ | lbl
      · simp only [hres]
        left
        trivial
      · simp only [hres]
        exact keys_setKey ((k0, JVal.str dev) :: rest) "location" (JVal.str lbl)
    · intro hk0
      unfold enrichTop at hnv ⊢
      rcases hres : dictLookup locations (normalizeMac dev) with _ | lbl
      · simp only [hres] at hnv ⊢
        by_cases hk0' : k0 = "neighbor_rssi"
        · subst hk0'
          simp [dictLookup] at hnv
          subst hnv
          by_cases hdev : dev = ""
          · subst hdev
            simp [processNeighborsVal] at hnv'
            subst hnv'
            exact ⟨rest, by simp [setKey]⟩
          · simp [processNeighborsVal, hdev] at hnv'
        · exact ⟨setKey rest "neighbor_rssi" nv', setKey_head_ne _ _ _ _ _ hk0'⟩
      · simp only [hres] at hnv ⊢
        rw [setKey_head_ne k0 "location" (JVal.str dev) (JVal.str lbl) rest hk0] at hnv ⊢
        by_cases hk0' : k0 = "neighbor_rssi"
        · subst hk0'
          simp [dictLookup] at hnv
          subst hnv
          by_cases hdev : dev = ""
          · subst hdev
            have hnone : dictLookup locations (normalizeMac "") = none := by decide
            rw [hnone] at hres; cases hres
          · simp [processNeighborsVal, hdev] at hnv'
        · exact ⟨setKey (setKey rest "location" (JVal.str lbl)) "neighbor_rssi" nv',
            setKey_head_ne _ _ _ _ _ hk0'⟩
  · intro nf nb' h
    rw [enrichNeighbor_obj_def] at h
    split at h
    · cases h
    · rename_i m
      split at h
      · rename_i lbl hlbl
        simp only [Option.some.injEq] at h
        refine ⟨setKey nf "neighbor_location" (JVal.str lbl), h.symm, ?_, ?_⟩
        · intro k hk
          exact dictLookup_setKey_ne _ _ _ _ hk
        · exact keys_setKey nf "neighbor_location" (JVal.str lbl)
      · simp only [Option.some.injEq] at h
        exact ⟨nf, h.symm, fun k hk => rfl, Or.inl rfl⟩
    · cases h
    · cases h
    · simp only [Option.some.injEq] at h
      exact ⟨nf, h.symm, fun k hk => rfl, Or.inl rfl⟩

/-- Witness for C10: at a concrete resolving payload, the `temperature`
field reads the same before and after enrichment. -/
theorem c10_amended_witness :
    dictLookup [("device", JVal.str "3a:4f:ec:85:c0:65:36:19"),
        ("temperature", JVal.num "25.5"), ("neighbor_rssi", JVal.arr []),
        ("location", JVal.str "raum_1_08")] "temperature"
      = dictLookup [("device", JVal.str "3a:4f:ec:85:c0:65:36:19"),
        ("temperature", JVal.num "25.5"), ("neighbor_rssi", JVal.arr [])] "temperature" := by
  obtain ⟨fields', hf, hlk, hkeys, hhead⟩ :=
    c10_amended.1 "device" "3a:4f:ec:85:c0:65:36:19"
      [("temperature", JVal.num "25.5"), ("neighbor_rssi", JVal.arr [])]
      (JVal.obj [("device", JVal.str "3a:4f:ec:85:c0:65:36:19"),
        ("temperature", JVal.num "25.5"), ("neighbor_rssi", JVal.arr []),
        ("location", JVal.str "raum_1_08")]) rfl
  injection hf with hf'
  subst hf'
  exact hlk "temperature" (by decide) (by decide)
